import Mathlib

/-!
# BotKube Slack bot (`pkg/bot/slack.go`)

A shallow embedding of `SlackBot.Start`, `slackMessage.HandleMessage` and
`slackMessage.Send`.

* Go strings are byte sequences; `len` counts bytes.
* Every call that leaves the function (logger, Slack client, RTM connection,
  executor factory) is appended to a trace of `Call`s.  What such a call
  returns is given by an `Env`, whose answers may depend on the whole history
  of calls made so far.
* The `select` of the event loop is driven by a list of `SelectOutcome`s: which
  case of the `select` fires at each iteration.
-/

namespace BotKube

/-! ## Strings -/

/-- A byte. -/
abbrev Byte := Fin 256

/-- A Go `string`: an immutable sequence of bytes. -/
abbrev GoString := List Byte

/-- Go `strings.HasPrefix(s, prefix)`:
`len(s) >= len(prefix) && s[0:len(prefix)] == prefix`. -/
def HasPrefix (s pre : GoString) : Bool :=
  decide (s.length ≥ pre.length) && (s.take pre.length == pre)

/-- Go `strings.TrimPrefix(s, prefix)`:
`if HasPrefix(s, prefix) { return s[len(prefix):] }; return s`. -/
def TrimPrefix (s pre : GoString) : GoString :=
  if HasPrefix s pre then s.drop pre.length else s

/-- The expression `"<@" + botID + ">"` (bytes `60 64 … 62`). -/
def mention (botID : GoString) : GoString :=
  [60, 64] ++ botID ++ [62]

/-! ## Data -/

/-- The `config.BotPlatform` tag handed to the executor factory; the bot passes
`config.SlackBot`. -/
inductive BotPlatform
  | SlackBot
  | other (name : GoString)
  deriving DecidableEq, Repr

/-- Context a Go error is wrapped in by `fmt.Errorf("while …: %w", err)`. -/
inductive ErrCtx
  | authTest          -- "while testing the ability to do auth request"
  | handlingMessage   -- "while handling message"
  | sendingMessage    -- "while sending message"
  | uploadingFile     -- "while uploading file"
  | postingMessage    -- "while posting Slack message"
  deriving DecidableEq, Repr

/-- Go `error` values that occur in the file. -/
inductive GoError
  | external (code : Nat)                 -- an error returned by the Slack library
  | emptyResponse (request : GoString)    -- "while reading Slack response: empty response for request %q"
  | invalidCredentials                    -- "invalid credentials"
  | wrap (ctx : ErrCtx) (inner : GoError)
  deriving DecidableEq, Repr

/-- Fields of `slack.Channel` read by `HandleMessage`. -/
structure ChannelInfo where
  IsChannel : Bool
  IsPrivate : Bool
  Name : GoString
  deriving DecidableEq, Repr

/-- Fields of `slack.MessageEvent` read by the bot. -/
structure MessageEvent where
  User : GoString
  Channel : GoString
  Text : GoString
  ThreadTimestamp : GoString
  deriving DecidableEq, Repr

/-- Value of `slack.FileUploadParameters` as filled in by `Send`. -/
structure FileUploadParameters where
  Filename : GoString
  Title : GoString
  Content : GoString
  Channels : List GoString
  deriving DecidableEq, Repr

/-- The `slack.MsgOption`s built by `Send`. -/
inductive MsgOption
  | Text (text : GoString) (escape : Bool)
  | AsUser (b : Bool)
  | TS (ts : GoString)
  deriving DecidableEq, Repr

/-- The log lines written by the file, by call site. -/
inductive LogLine
  | startingBot
  | shutdownRequested
  | channelClosed
  | connected
  | handlingFailed (err : GoError)
  | rtmError (msg : GoString)
  | connectionError (msg : GoString)
  | incomingEventError (msg : GoString)
  | outgoingError (msg : GoString)
  | unmarshallingError (msg : GoString)
  | rateLimited (msg : GoString)
  | ignoringMessage (botID : GoString)
  | incomingRequest (request : GoString)
  | response (response : GoString)
  deriving DecidableEq, Repr

/-- A call made by the bot to one of its collaborators. -/
inductive Call
  | log (line : LogLine)
  | AuthTest
  | ManageConnection
  | Disconnect
  | GetConversationInfo (channel : GoString) (includeLocale : Bool)
  | NewDefault (platform : BotPlatform) (isAuthChannel : Bool) (request : GoString)
  | Execute (platform : BotPlatform) (isAuthChannel : Bool) (request : GoString)
  | UploadFile (params : FileUploadParameters)
  | PostMessage (channel : GoString) (options : List MsgOption)
  deriving DecidableEq, Repr

/-- The payload `msg.Data` of an RTM event, by dynamic type. -/
inductive EventData
  | ConnectedEvent
  | MessageEvent (ev : BotKube.MessageEvent)
  | RTMError (msg : GoString)
  | ConnectionErrorEvent (msg : GoString)
  | IncomingEventError (msg : GoString)
  | OutgoingErrorEvent (msg : GoString)
  | UnmarshallingErrorEvent (msg : GoString)
  | RateLimitedError (msg : GoString)
  | InvalidAuthEvent
  | other
  deriving DecidableEq, Repr

/-- Which case of the `select` in `Start` fires at one iteration. -/
inductive SelectOutcome
  | ctxDone                     -- `<-ctx.Done()`
  | channelClosed               -- `msg, ok := <-rtm.IncomingEvents` with `!ok`
  | event (data : EventData)    -- an event received from `rtm.IncomingEvents`
  deriving DecidableEq, Repr

/-- What the collaborators return; the first argument is the history of calls
made before the one being answered. -/
structure Env where
  AuthTest : List Call → Except GoError GoString
  Disconnect : List Call → Option GoError
  GetConversationInfo : List Call → GoString → Bool → Except GoError ChannelInfo
  Execute : List Call → BotPlatform → Bool → GoString → GoString
  UploadFile : List Call → FileUploadParameters → Option GoError
  PostMessage : List Call → GoString → List MsgOption → Option GoError
  formatCodeBlock : GoString → GoString

/-- Exported configuration fields of `SlackBot`. -/
structure SlackBot where
  Token : GoString
  AllowKubectl : Bool
  RestrictAccess : Bool
  ClusterName : GoString
  ChannelName : GoString
  SlackURL : GoString
  BotID : GoString
  DefaultNamespace : GoString
  deriving DecidableEq, Repr

/-- Data fields of `slackMessage`. -/
structure slackMessage where
  Event : MessageEvent
  BotID : GoString
  Request : GoString
  Response : GoString
  IsAuthChannel : Bool
  deriving DecidableEq, Repr

/-! ## `slackMessage.Send` -/

/-- `func (sm *slackMessage) Send() error`: the calls made (appended to `tr`)
and the error returned (`none` for `nil`). -/
def Send (env : Env) (sm : slackMessage) (tr : List Call) : List Call × Option GoError :=
  let tr := tr ++ [Call.log (.incomingRequest sm.Request)]
  let tr := tr ++ [Call.log (.response sm.Response)]
  if sm.Response.length = 0 then
    (tr, some (.emptyResponse sm.Request))
  else if sm.Response.length ≥ 3990 then
    let params : FileUploadParameters :=
      { Filename := sm.Request
        Title := sm.Request
        Content := sm.Response
        Channels := [sm.Event.Channel] }
    match env.UploadFile tr params with
    | some err => (tr ++ [Call.UploadFile params], some (.wrap .uploadingFile err))
    | none => (tr ++ [Call.UploadFile params], none)
  else
    let options : List MsgOption :=
      [MsgOption.Text (env.formatCodeBlock sm.Response) false, MsgOption.AsUser true]
    let options :=
      if sm.Event.ThreadTimestamp ≠ [] then options ++ [MsgOption.TS sm.Event.ThreadTimestamp]
      else options
    match env.PostMessage tr sm.Event.Channel options with
    | some err => (tr ++ [Call.PostMessage sm.Event.Channel options], some (.wrap .postingMessage err))
    | none => (tr ++ [Call.PostMessage sm.Event.Channel options], none)

/-! ## `slackMessage.HandleMessage` -/

/-- The tail of `HandleMessage` from line 173 on: the id check, the trim, the
executor and `Send`. -/
def dispatch (b : SlackBot) (env : Env) (sm : slackMessage) (tr : List Call) :
    slackMessage × List Call × Option GoError :=
  let sm := if b.ChannelName = sm.Event.Channel then { sm with IsAuthChannel := true } else sm
  let sm := { sm with Request := TrimPrefix sm.Event.Text (mention sm.BotID) }
  let resp := env.Execute (tr ++ [Call.NewDefault .SlackBot sm.IsAuthChannel sm.Request])
    .SlackBot sm.IsAuthChannel sm.Request
  let tr := tr ++ [Call.NewDefault .SlackBot sm.IsAuthChannel sm.Request,
                   Call.Execute .SlackBot sm.IsAuthChannel sm.Request]
  let sm := { sm with Response := resp }
  match Send env sm tr with
  | (tr, some err) => (sm, tr, some (.wrap .sendingMessage err))
  | (tr, none) => (sm, tr, none)

/-- `func (sm *slackMessage) HandleMessage(b *SlackBot) error`: the message
after the call, the calls made (appended to `tr`) and the error returned. -/
def HandleMessage (b : SlackBot) (env : Env) (sm : slackMessage) (tr : List Call) :
    slackMessage × List Call × Option GoError :=
  let lookup := env.GetConversationInfo tr sm.Event.Channel true
  let tr := tr ++ [Call.GetConversationInfo sm.Event.Channel true]
  match lookup with
  | .ok info =>
    if info.IsChannel || info.IsPrivate then
      if !HasPrefix sm.Event.Text (mention sm.BotID) then
        (sm, tr ++ [Call.log (.ignoringMessage sm.BotID)], none)
      else
        let sm := if b.ChannelName = info.Name then { sm with IsAuthChannel := true } else sm
        dispatch b env sm tr
    else
      dispatch b env sm tr
  | .error _ => dispatch b env sm tr

/-- The filter of `HandleMessage` (lines 159 to 166) ignores the message: the
lookup succeeded, the conversation is a channel or private, and the text does
not start with the mention. -/
def dropped (env : Env) (sm : slackMessage) (tr : List Call) : Bool :=
  match env.GetConversationInfo tr sm.Event.Channel true with
  | .ok info => (info.IsChannel || info.IsPrivate) && !HasPrefix sm.Event.Text (mention sm.BotID)
  | .error _ => false

/-- The name check of line 168 is reached and succeeds. -/
def nameMatches (b : SlackBot) (env : Env) (sm : slackMessage) (tr : List Call) : Bool :=
  match env.GetConversationInfo tr sm.Event.Channel true with
  | .ok info => (info.IsChannel || info.IsPrivate) && decide (b.ChannelName = info.Name)
  | .error _ => false

/-! ## `SlackBot.Start` -/

/-- The `slackMessage` literal built in `Start` for a message event; fields
not named there have their zero value. -/
def newSlackMessage (ev : MessageEvent) (botID : GoString) : slackMessage :=
  { Event := ev, BotID := botID, Request := [], Response := [], IsAuthChannel := false }

/-- Outcome of running `Start` against a finite list of `select` outcomes. -/
inductive StartResult
  | waiting                          -- blocked in `select`, no case ready
  | returned (err : Option GoError)  -- `Start` returned `err`
  deriving DecidableEq, Repr

/-- The body of the type switch on `msg.Data`: `none` when the loop goes on
to its next iteration, `some err` when `Start` returns `err`. -/
def handleEvent (b : SlackBot) (env : Env) (botID : GoString) (data : EventData)
    (tr : List Call) : List Call × Option (Option GoError) :=
  match data with
  | .ConnectedEvent => (tr ++ [Call.log .connected], none)
  | .MessageEvent ev =>
    if ev.User = botID then
      (tr, none)
    else
      match HandleMessage b env (newSlackMessage ev botID) tr with
      | (_, tr, some err) => (tr ++ [Call.log (.handlingFailed (.wrap .handlingMessage err))], none)
      | (_, tr, none) => (tr, none)
  | .RTMError msg => (tr ++ [Call.log (.rtmError msg)], none)
  | .ConnectionErrorEvent msg => (tr ++ [Call.log (.connectionError msg)], none)
  | .IncomingEventError msg => (tr ++ [Call.log (.incomingEventError msg)], none)
  | .OutgoingErrorEvent msg => (tr ++ [Call.log (.outgoingError msg)], none)
  | .UnmarshallingErrorEvent msg => (tr ++ [Call.log (.unmarshallingError msg)], none)
  | .RateLimitedError msg => (tr ++ [Call.log (.rateLimited msg)], none)
  | .InvalidAuthEvent => (tr, some (some .invalidCredentials))
  | .other => (tr, none)

/-- The `for { select { … } }` loop of `Start`. -/
def eventLoop (b : SlackBot) (env : Env) (botID : GoString) :
    List SelectOutcome → List Call → List Call × StartResult
  | [], tr => (tr, .waiting)
  | .ctxDone :: _, tr =>
    let tr := tr ++ [Call.log .shutdownRequested]
    (tr ++ [Call.Disconnect], .returned (env.Disconnect tr))
  | .channelClosed :: _, tr =>
    (tr ++ [Call.log .channelClosed], .returned none)
  | .event data :: rest, tr =>
    match handleEvent b env botID data tr with
    | (tr, some err) => (tr, .returned err)
    | (tr, none) => eventLoop b env botID rest tr

/-- `func (b *SlackBot) Start(ctx context.Context) error`, run against the
`select` outcomes `sched`. -/
def Start (b : SlackBot) (env : Env) (sched : List SelectOutcome) : List Call × StartResult :=
  let tr := [Call.log .startingBot]
  if b.SlackURL.length ≠ 0 then
    eventLoop b env b.BotID sched (tr ++ [Call.ManageConnection])
  else
    match env.AuthTest tr with
    | .error err => (tr ++ [Call.AuthTest], .returned (some (.wrap .authTest err)))
    | .ok userID => eventLoop b env userID sched (tr ++ [Call.AuthTest, Call.ManageConnection])

/-! ## Observations on traces -/

/-- The call is an executor creation or execution. -/
def Call.isExecutor : Call → Bool
  | .NewDefault _ _ _ => true
  | .Execute _ _ _ => true
  | _ => false

/-- The call is `NewDefault`. -/
def Call.isNewDefault : Call → Bool
  | .NewDefault _ _ _ => true
  | _ => false

/-- The call is `Execute`. -/
def Call.isExecute : Call → Bool
  | .Execute _ _ _ => true
  | _ => false

/-- The call is `UploadFile`. -/
def Call.isUploadFile : Call → Bool
  | .UploadFile _ => true
  | _ => false

/-- The call is `PostMessage`. -/
def Call.isPostMessage : Call → Bool
  | .PostMessage _ _ => true
  | _ => false

/-- The call is `Disconnect`. -/
def Call.isDisconnect : Call → Bool
  | .Disconnect => true
  | _ => false

/-! ## Concrete inputs -/

/-- The bytes of an ASCII string literal. -/
def ascii (s : String) : GoString :=
  s.toList.map (fun c => Fin.ofNat c.toNat)

/-- An environment whose collaborators answer the same way at every call;
`formatCodeBlock` is the identity here. -/
def constEnv (info : Except GoError ChannelInfo) (reply : GoString)
    (sendErr discErr : Option GoError) : Env :=
  { AuthTest := fun _ => .ok (ascii "U123")
    Disconnect := fun _ => discErr
    GetConversationInfo := fun _ _ _ => info
    Execute := fun _ _ _ _ => reply
    UploadFile := fun _ _ => sendErr
    PostMessage := fun _ _ _ => sendErr
    formatCodeBlock := fun s => s }

/-- A bot configured for the conversation `C1`, with a custom Slack URL and the
identity `U123`. -/
def demoBot : SlackBot :=
  { Token := ascii "xoxb"
    AllowKubectl := true
    RestrictAccess := false
    ClusterName := ascii "dev"
    ChannelName := ascii "C1"
    SlackURL := ascii "http://slack"
    BotID := ascii "U123"
    DefaultNamespace := ascii "default" }

/-- A message event from user `U9` in conversation `C1`. -/
def demoEvent (text thread : GoString) : MessageEvent :=
  { User := ascii "U9", Channel := ascii "C1", Text := text, ThreadTimestamp := thread }

/-- Conversation metadata of a public channel named `general`. -/
def publicChannel : ChannelInfo :=
  { IsChannel := true, IsPrivate := false, Name := ascii "general" }

/-- Conversation metadata of a direct conversation. -/
def directConversation : ChannelInfo :=
  { IsChannel := false, IsPrivate := false, Name := [] }

/-- The message `Start` builds for `text` sent by `U9` in `C1` outside a thread,
with bot identity `U123`. -/
def demoMessage (text : GoString) : slackMessage :=
  newSlackMessage (demoEvent text []) (ascii "U123")

/-- A reply of 50 bytes. -/
def shortReply : GoString :=
  List.replicate 50 120

/-- A message event in `C1` whose sender is `U123`. -/
def ownEvent : MessageEvent :=
  { User := ascii "U123", Channel := ascii "C1", Text := ascii "pods listed",
    ThreadTimestamp := [] }

/-- A message posted in a thread, with its request and a 50-byte response set. -/
def threadedMessage : slackMessage :=
  { Event := demoEvent (ascii "<@U123> get pods") (ascii "1700000000.000100")
    BotID := ascii "U123"
    Request := ascii " get pods"
    Response := shortReply
    IsAuthChannel := true }

/-- An environment in which the lookup reports a direct conversation and the
executor answers with the empty string, so that `Send` fails. -/
def silentEnv : Env :=
  constEnv (.ok directConversation) [] none none

/-! ## Facts about the string functions -/

theorem HasPrefix_iff (s pre : GoString) : HasPrefix s pre = true ↔ pre <+: s := by
  unfold HasPrefix
  constructor
  · intro h
    simp only [Bool.and_eq_true, decide_eq_true_eq, beq_iff_eq] at h
    exact List.prefix_iff_eq_take.mpr h.2.symm
  · intro h
    simp only [Bool.and_eq_true, decide_eq_true_eq, beq_iff_eq]
    exact ⟨h.length_le, (List.prefix_iff_eq_take.mp h).symm⟩

theorem HasPrefix_eq_false_iff (s pre : GoString) : HasPrefix s pre = false ↔ ¬ pre <+: s := by
  rw [← HasPrefix_iff, Bool.not_eq_true]

theorem TrimPrefix_append (pre rest : GoString) : TrimPrefix (pre ++ rest) pre = rest := by
  have h : HasPrefix (pre ++ rest) pre = true := (HasPrefix_iff _ _).mpr (List.prefix_append _ _)
  simp [TrimPrefix, h]

theorem TrimPrefix_absent (s pre : GoString) (h : ¬ pre <+: s) : TrimPrefix s pre = s := by
  have h2 : HasPrefix s pre = false := (HasPrefix_eq_false_iff _ _).mpr h
  simp [TrimPrefix, h2]

theorem mention_length_pos (botID : GoString) : 0 < (mention botID).length := by
  simp [mention]

/-! ## `Send` by case -/

theorem Send_empty (env : Env) (sm : slackMessage) (tr : List Call)
    (h : sm.Response.length = 0) :
    Send env sm tr =
      (tr ++ [Call.log (.incomingRequest sm.Request), Call.log (.response sm.Response)],
        some (.emptyResponse sm.Request)) := by
  simp [Send, h]

theorem Send_upload (env : Env) (sm : slackMessage) (tr : List Call)
    (h : 3990 ≤ sm.Response.length) :
    Send env sm tr =
      (tr ++ [Call.log (.incomingRequest sm.Request), Call.log (.response sm.Response),
          Call.UploadFile ⟨sm.Request, sm.Request, sm.Response, [sm.Event.Channel]⟩],
        (env.UploadFile
          (tr ++ [Call.log (.incomingRequest sm.Request), Call.log (.response sm.Response)])
          ⟨sm.Request, sm.Request, sm.Response, [sm.Event.Channel]⟩).map
            (GoError.wrap .uploadingFile)) := by
  have h0 : sm.Response.length ≠ 0 := by omega
  unfold Send
  simp only [h0, if_false, ge_iff_le, h, if_true, List.append_assoc, List.singleton_append]
  cases env.UploadFile _ _ <;> simp

theorem Send_post (env : Env) (sm : slackMessage) (tr : List Call)
    (h0 : 0 < sm.Response.length) (h1 : sm.Response.length < 3990) :
    Send env sm tr =
      (tr ++ [Call.log (.incomingRequest sm.Request), Call.log (.response sm.Response),
          Call.PostMessage sm.Event.Channel
            ([MsgOption.Text (env.formatCodeBlock sm.Response) false, MsgOption.AsUser true] ++
              if sm.Event.ThreadTimestamp ≠ [] then [MsgOption.TS sm.Event.ThreadTimestamp]
              else [])],
        (env.PostMessage
          (tr ++ [Call.log (.incomingRequest sm.Request), Call.log (.response sm.Response)])
          sm.Event.Channel
          ([MsgOption.Text (env.formatCodeBlock sm.Response) false, MsgOption.AsUser true] ++
              if sm.Event.ThreadTimestamp ≠ [] then [MsgOption.TS sm.Event.ThreadTimestamp]
              else [])).map (GoError.wrap .postingMessage)) := by
  have h0 : sm.Response.length ≠ 0 := by omega
  have h2 : ¬ (3990 ≤ sm.Response.length) := by omega
  unfold Send
  simp only [h0, if_false, ge_iff_le, h2, List.append_assoc, List.singleton_append]
  by_cases ht : sm.Event.ThreadTimestamp = []
  · simp only [ht, ne_eq, not_true_eq_false, if_false, List.append_nil]
    cases env.PostMessage _ _ _ <;> simp
  · simp only [ne_eq, ht, not_false_eq_true, if_true]
    cases env.PostMessage _ _ _ <;> simp

/-- Every call `Send` makes is a log line, an upload or a post. -/
theorem Send_calls (env : Env) (sm : slackMessage) (tr : List Call) :
    ∃ new, (Send env sm tr).1 = tr ++ new ∧
      ∀ c ∈ new, c.isExecutor = false ∧ c.isDisconnect = false := by
  rcases Nat.eq_zero_or_pos sm.Response.length with h | h
  · rw [Send_empty env sm tr h]
    exact ⟨_, rfl, by simp [Call.isExecutor, Call.isDisconnect]⟩
  · by_cases h1 : sm.Response.length < 3990
    · rw [Send_post env sm tr h h1]
      exact ⟨_, rfl, by simp [Call.isExecutor, Call.isDisconnect]⟩
    · rw [Send_upload env sm tr (by omega)]
      exact ⟨_, rfl, by simp [Call.isExecutor, Call.isDisconnect]⟩

/-! ## Claims about `Send` -/

/-- C1: for a response of length `L`, `Send` does exactly one of three things.
If `L = 0` it returns the empty-response error and makes no `UploadFile` and no
`PostMessage` call; if `L ≥ 3990` it makes exactly one `UploadFile` call and no
`PostMessage` call; otherwise it makes exactly one `PostMessage` call and no
`UploadFile` call. -/
theorem Send_one_of_three (env : Env) (sm : slackMessage) (tr : List Call) :
    ∃ new, (Send env sm tr).1 = tr ++ new ∧
      (if sm.Response.length = 0 then
        (Send env sm tr).2 = some (.emptyResponse sm.Request) ∧
          new.countP Call.isUploadFile = 0 ∧ new.countP Call.isPostMessage = 0
      else if sm.Response.length ≥ 3990 then
        new.countP Call.isUploadFile = 1 ∧ new.countP Call.isPostMessage = 0
      else
        new.countP Call.isPostMessage = 1 ∧ new.countP Call.isUploadFile = 0) := by
  rcases Nat.eq_zero_or_pos sm.Response.length with h | h
  · rw [Send_empty env sm tr h]
    exact ⟨_, rfl, by simp [h, Call.isUploadFile, Call.isPostMessage]⟩
  · by_cases h1 : sm.Response.length < 3990
    · rw [Send_post env sm tr h h1]
      have h0 : sm.Response.length ≠ 0 := by omega
      have h2 : ¬ (sm.Response.length ≥ 3990) := by omega
      exact ⟨_, rfl, by simp [h0, h2, Call.isUploadFile, Call.isPostMessage]⟩
    · rw [Send_upload env sm tr (by omega)]
      have h0 : sm.Response.length ≠ 0 := by omega
      have h2 : sm.Response.length ≥ 3990 := by omega
      exact ⟨_, rfl, by simp [h0, h2, Call.isUploadFile, Call.isPostMessage]⟩

/-- C7: when the response has length strictly between 0 and 3990, `Send` makes
one `PostMessage` call, to the conversation of the event; its options carry a
thread anchor exactly when the event's thread timestamp is non-empty, and the
anchor is then that timestamp. -/
theorem Send_post_thread (env : Env) (sm : slackMessage) (tr : List Call)
    (h0 : 0 < sm.Response.length) (h1 : sm.Response.length < 3990) :
    ∃ options,
      (Send env sm tr).1 =
        tr ++ [Call.log (.incomingRequest sm.Request), Call.log (.response sm.Response),
          Call.PostMessage sm.Event.Channel options] ∧
      (∀ ts, MsgOption.TS ts ∈ options ↔
        sm.Event.ThreadTimestamp ≠ [] ∧ ts = sm.Event.ThreadTimestamp) ∧
      options.countP (fun o => o matches MsgOption.TS _) =
        if sm.Event.ThreadTimestamp ≠ [] then 1 else 0 := by
  rw [Send_post env sm tr h0 h1]
  refine ⟨_, rfl, ?_, ?_⟩
  · intro ts
    by_cases ht : sm.Event.ThreadTimestamp = []
    · simp [ht]
    · simp [ht]
  · by_cases ht : sm.Event.ThreadTimestamp = []
    · simp [ht]
    · simp [ht]

/-! ## `HandleMessage` by case -/

theorem dispatch_eq (b : SlackBot) (env : Env) (sm : slackMessage) (tr : List Call) :
    dispatch b env sm tr =
      ({ sm with
          IsAuthChannel := sm.IsAuthChannel || decide (b.ChannelName = sm.Event.Channel)
          Request := TrimPrefix sm.Event.Text (mention sm.BotID)
          Response :=
            env.Execute
              (tr ++ [Call.NewDefault .SlackBot
                (sm.IsAuthChannel || decide (b.ChannelName = sm.Event.Channel))
                (TrimPrefix sm.Event.Text (mention sm.BotID))])
              .SlackBot (sm.IsAuthChannel || decide (b.ChannelName = sm.Event.Channel))
              (TrimPrefix sm.Event.Text (mention sm.BotID)) },
        (Send env
          { sm with
            IsAuthChannel := sm.IsAuthChannel || decide (b.ChannelName = sm.Event.Channel)
            Request := TrimPrefix sm.Event.Text (mention sm.BotID)
            Response :=
              env.Execute
                (tr ++ [Call.NewDefault .SlackBot
                  (sm.IsAuthChannel || decide (b.ChannelName = sm.Event.Channel))
                  (TrimPrefix sm.Event.Text (mention sm.BotID))])
                .SlackBot (sm.IsAuthChannel || decide (b.ChannelName = sm.Event.Channel))
                (TrimPrefix sm.Event.Text (mention sm.BotID)) }
          (tr ++ [Call.NewDefault .SlackBot
              (sm.IsAuthChannel || decide (b.ChannelName = sm.Event.Channel))
              (TrimPrefix sm.Event.Text (mention sm.BotID)),
            Call.Execute .SlackBot
              (sm.IsAuthChannel || decide (b.ChannelName = sm.Event.Channel))
              (TrimPrefix sm.Event.Text (mention sm.BotID))])).1,
        (Send env
          { sm with
            IsAuthChannel := sm.IsAuthChannel || decide (b.ChannelName = sm.Event.Channel)
            Request := TrimPrefix sm.Event.Text (mention sm.BotID)
            Response :=
              env.Execute
                (tr ++ [Call.NewDefault .SlackBot
                  (sm.IsAuthChannel || decide (b.ChannelName = sm.Event.Channel))
                  (TrimPrefix sm.Event.Text (mention sm.BotID))])
                .SlackBot (sm.IsAuthChannel || decide (b.ChannelName = sm.Event.Channel))
                (TrimPrefix sm.Event.Text (mention sm.BotID)) }
          (tr ++ [Call.NewDefault .SlackBot
              (sm.IsAuthChannel || decide (b.ChannelName = sm.Event.Channel))
              (TrimPrefix sm.Event.Text (mention sm.BotID)),
            Call.Execute .SlackBot
              (sm.IsAuthChannel || decide (b.ChannelName = sm.Event.Channel))
              (TrimPrefix sm.Event.Text (mention sm.BotID))])).2.map
          (GoError.wrap .sendingMessage)) := by
  unfold dispatch
  by_cases hc : b.ChannelName = sm.Event.Channel
  · simp only [hc, if_true, decide_True, Bool.or_true]
    generalize Send env _ _ = r
    rcases r with ⟨t, _ | e⟩ <;> rfl
  · simp only [hc, if_false, decide_False, Bool.or_false]
    generalize Send env _ _ = r
    rcases r with ⟨t, _ | e⟩ <;> rfl

theorem HandleMessage_of_dropped (b : SlackBot) (env : Env) (sm : slackMessage)
    (tr : List Call) (h : dropped env sm tr = true) :
    HandleMessage b env sm tr =
      (sm, tr ++ [Call.GetConversationInfo sm.Event.Channel true,
        Call.log (.ignoringMessage sm.BotID)], none) := by
  unfold dropped at h
  unfold HandleMessage
  cases hl : env.GetConversationInfo tr sm.Event.Channel true with
  | error e => simp [hl] at h
  | ok info =>
    simp only [hl, Bool.and_eq_true] at h
    simp [h.1, h.2]

theorem HandleMessage_of_not_dropped (b : SlackBot) (env : Env) (sm : slackMessage)
    (tr : List Call) (h : dropped env sm tr = false) :
    HandleMessage b env sm tr =
      dispatch b env { sm with IsAuthChannel := sm.IsAuthChannel || nameMatches b env sm tr }
        (tr ++ [Call.GetConversationInfo sm.Event.Channel true]) := by
  unfold dropped at h
  unfold HandleMessage nameMatches
  cases hl : env.GetConversationInfo tr sm.Event.Channel true with
  | error e => simp
  | ok info =>
    simp only [hl, Bool.and_eq_false_iff] at h
    by_cases hc : (info.IsChannel || info.IsPrivate) = true
    · have hp : (!HasPrefix sm.Event.Text (mention sm.BotID)) = false := by
        rcases h with h | h
        · rw [hc] at h; cases h
        · exact h
      by_cases hn : b.ChannelName = info.Name
      · simp [hc, hp, hn]
      · simp [hc, hp, hn]
    · simp only [Bool.not_eq_true] at hc
      simp [hc]

theorem countP_eq_zero_of_forall (p : Call → Bool) (l : List Call)
    (h : ∀ c ∈ l, p c = false) : l.countP p = 0 := by
  rw [List.countP_eq_zero]
  intro c hc
  simp [h c hc]

/-- A message that passes the filter: the lookup, one executor creation, one
execution, then the calls of `Send` on the message carrying the executor's
answer. -/
theorem HandleMessage_served (b : SlackBot) (env : Env) (sm : slackMessage)
    (tr : List Call) (h : dropped env sm tr = false) :
    ∃ auth req sent inner,
      auth = (sm.IsAuthChannel || nameMatches b env sm tr ||
        decide (b.ChannelName = sm.Event.Channel)) ∧
      req = TrimPrefix sm.Event.Text (mention sm.BotID) ∧
      Send env
        { sm with
          IsAuthChannel := auth
          Request := req
          Response :=
            env.Execute (tr ++ [Call.GetConversationInfo sm.Event.Channel true,
              Call.NewDefault .SlackBot auth req]) .SlackBot auth req }
        (tr ++ [Call.GetConversationInfo sm.Event.Channel true,
          Call.NewDefault .SlackBot auth req, Call.Execute .SlackBot auth req]) =
        (tr ++ [Call.GetConversationInfo sm.Event.Channel true,
          Call.NewDefault .SlackBot auth req, Call.Execute .SlackBot auth req] ++ sent,
          inner) ∧
      (∀ c ∈ sent, c.isExecutor = false ∧ c.isDisconnect = false) ∧
      HandleMessage b env sm tr =
        ({ sm with
            IsAuthChannel := auth
            Request := req
            Response :=
              env.Execute (tr ++ [Call.GetConversationInfo sm.Event.Channel true,
                Call.NewDefault .SlackBot auth req]) .SlackBot auth req },
          tr ++ [Call.GetConversationInfo sm.Event.Channel true,
            Call.NewDefault .SlackBot auth req, Call.Execute .SlackBot auth req] ++ sent,
          inner.map (GoError.wrap .sendingMessage)) := by
  obtain ⟨sent, hs, hsent⟩ := Send_calls env
    { sm with
      IsAuthChannel := (sm.IsAuthChannel || nameMatches b env sm tr ||
        decide (b.ChannelName = sm.Event.Channel))
      Request := TrimPrefix sm.Event.Text (mention sm.BotID)
      Response :=
        env.Execute (tr ++ [Call.GetConversationInfo sm.Event.Channel true,
          Call.NewDefault .SlackBot (sm.IsAuthChannel || nameMatches b env sm tr ||
            decide (b.ChannelName = sm.Event.Channel))
            (TrimPrefix sm.Event.Text (mention sm.BotID))]) .SlackBot
          (sm.IsAuthChannel || nameMatches b env sm tr ||
            decide (b.ChannelName = sm.Event.Channel))
          (TrimPrefix sm.Event.Text (mention sm.BotID)) }
    (tr ++ [Call.GetConversationInfo sm.Event.Channel true,
      Call.NewDefault .SlackBot (sm.IsAuthChannel || nameMatches b env sm tr ||
        decide (b.ChannelName = sm.Event.Channel))
        (TrimPrefix sm.Event.Text (mention sm.BotID)),
      Call.Execute .SlackBot (sm.IsAuthChannel || nameMatches b env sm tr ||
        decide (b.ChannelName = sm.Event.Channel))
        (TrimPrefix sm.Event.Text (mention sm.BotID))])
  refine ⟨_, _, sent, _, rfl, rfl, Prod.ext hs rfl, hsent, ?_⟩
  rw [HandleMessage_of_not_dropped b env sm tr h, dispatch_eq]
  simp only [List.append_assoc, List.singleton_append, List.cons_append, List.nil_append] at hs ⊢
  rw [hs]

/-! ## Claims about `HandleMessage` -/

/-- C3: when the conversation is a channel or a private group and the text does
not begin with `<@BotID>`, `HandleMessage` makes no executor, `PostMessage` or
`UploadFile` call and returns no error; it only looks the conversation up and
logs that the message is ignored. -/
theorem HandleMessage_ignores_unmentioned (b : SlackBot) (env : Env) (sm : slackMessage)
    (tr : List Call) (info : ChannelInfo)
    (hl : env.GetConversationInfo tr sm.Event.Channel true = .ok info)
    (hk : info.IsChannel = true ∨ info.IsPrivate = true)
    (hp : ¬ mention sm.BotID <+: sm.Event.Text) :
    ∃ new, (HandleMessage b env sm tr).2.1 = tr ++ new ∧
      new = [Call.GetConversationInfo sm.Event.Channel true,
        Call.log (.ignoringMessage sm.BotID)] ∧
      new.countP Call.isExecutor = 0 ∧
      new.countP Call.isPostMessage = 0 ∧
      new.countP Call.isUploadFile = 0 ∧
      (HandleMessage b env sm tr).2.2 = none := by
  have hd : dropped env sm tr = true := by
    unfold dropped
    rw [hl]
    have h1 : (info.IsChannel || info.IsPrivate) = true := by
      rcases hk with h | h <;> simp [h]
    have h2 : HasPrefix sm.Event.Text (mention sm.BotID) = false :=
      (HasPrefix_eq_false_iff _ _).mpr hp
    simp [h1, h2]
  rw [HandleMessage_of_dropped b env sm tr hd]
  exact ⟨_, rfl, rfl, by simp [Call.isExecutor], by simp [Call.isPostMessage],
    by simp [Call.isUploadFile], rfl⟩

theorem HandleMessage_ignores_unmentioned_witness :
    (constEnv (.ok publicChannel) shortReply none none).GetConversationInfo []
        (demoMessage (ascii "get pods")).Event.Channel true = .ok publicChannel ∧
      (publicChannel.IsChannel = true ∨ publicChannel.IsPrivate = true) ∧
      (¬ mention (demoMessage (ascii "get pods")).BotID <+:
        (demoMessage (ascii "get pods")).Event.Text) ∧
      ∃ new,
        (HandleMessage demoBot (constEnv (.ok publicChannel) shortReply none none)
          (demoMessage (ascii "get pods")) []).2.1 = [] ++ new ∧
        new = [Call.GetConversationInfo (demoMessage (ascii "get pods")).Event.Channel true,
          Call.log (.ignoringMessage (demoMessage (ascii "get pods")).BotID)] ∧
        new.countP Call.isExecutor = 0 ∧
        new.countP Call.isPostMessage = 0 ∧
        new.countP Call.isUploadFile = 0 ∧
        (HandleMessage demoBot (constEnv (.ok publicChannel) shortReply none none)
          (demoMessage (ascii "get pods")) []).2.2 = none :=
  ⟨rfl, Or.inl rfl, by decide,
    HandleMessage_ignores_unmentioned demoBot _ (demoMessage (ascii "get pods")) []
      publicChannel rfl (Or.inl rfl) (by decide)⟩

/-- C5: a message that the filter does not drop causes exactly one executor
creation and one execution, with the Slack platform tag, the authorized flag of
the message and the request text; the request text is the raw text without its
leading `<@BotID>` when it has one and the raw text otherwise; the string the
executor returns is the response of the message `Send` is run on. -/
theorem HandleMessage_dispatches_once (b : SlackBot) (env : Env) (sm : slackMessage)
    (tr : List Call) (h : dropped env sm tr = false) :
    ∃ auth req sent inner,
      HandleMessage b env sm tr =
        ({ sm with
            IsAuthChannel := auth
            Request := req
            Response :=
              env.Execute (tr ++ [Call.GetConversationInfo sm.Event.Channel true,
                Call.NewDefault .SlackBot auth req]) .SlackBot auth req },
          tr ++ [Call.GetConversationInfo sm.Event.Channel true,
            Call.NewDefault .SlackBot auth req, Call.Execute .SlackBot auth req] ++ sent,
          inner.map (GoError.wrap .sendingMessage)) ∧
      (∀ rest, sm.Event.Text = mention sm.BotID ++ rest → req = rest) ∧
      (¬ mention sm.BotID <+: sm.Event.Text → req = sm.Event.Text) ∧
      Send env (HandleMessage b env sm tr).1
        (tr ++ [Call.GetConversationInfo sm.Event.Channel true,
          Call.NewDefault .SlackBot auth req, Call.Execute .SlackBot auth req]) =
        ((HandleMessage b env sm tr).2.1, inner) ∧
      ([Call.GetConversationInfo sm.Event.Channel true,
        Call.NewDefault .SlackBot auth req, Call.Execute .SlackBot auth req] ++ sent).countP
          Call.isNewDefault = 1 ∧
      ([Call.GetConversationInfo sm.Event.Channel true,
        Call.NewDefault .SlackBot auth req, Call.Execute .SlackBot auth req] ++ sent).countP
          Call.isExecute = 1 := by
  obtain ⟨auth, req, sent, inner, _, hreq, hS, hsent, hH⟩ := HandleMessage_served b env sm tr h
  refine ⟨auth, req, sent, inner, hH, ?_, ?_, ?_, ?_, ?_⟩
  · intro rest ht
    rw [hreq, ht, TrimPrefix_append]
  · intro hn
    rw [hreq, TrimPrefix_absent _ _ hn]
  · rw [hH]
    exact hS
  · have h0 : sent.countP Call.isNewDefault = 0 := by
      apply countP_eq_zero_of_forall
      intro c hc
      have := (hsent c hc).1
      cases c <;> simp_all [Call.isExecutor, Call.isNewDefault]
    rw [List.countP_append, h0]
    simp [Call.isNewDefault]
  · have h0 : sent.countP Call.isExecute = 0 := by
      apply countP_eq_zero_of_forall
      intro c hc
      have := (hsent c hc).1
      cases c <;> simp_all [Call.isExecutor, Call.isExecute]
    rw [List.countP_append, h0]
    simp [Call.isExecute]

theorem HandleMessage_dispatches_once_witness :
    dropped (constEnv (.ok publicChannel) shortReply none none)
        (demoMessage (ascii "<@U123> get pods")) [] = false ∧
      (∃ auth req sent inner,
        HandleMessage demoBot (constEnv (.ok publicChannel) shortReply none none)
            (demoMessage (ascii "<@U123> get pods")) [] =
          ({ demoMessage (ascii "<@U123> get pods") with
              IsAuthChannel := auth
              Request := req
              Response :=
                (constEnv (.ok publicChannel) shortReply none none).Execute
                  ([] ++ [Call.GetConversationInfo
                      (demoMessage (ascii "<@U123> get pods")).Event.Channel true,
                    Call.NewDefault .SlackBot auth req]) .SlackBot auth req },
            [] ++ [Call.GetConversationInfo
                (demoMessage (ascii "<@U123> get pods")).Event.Channel true,
              Call.NewDefault .SlackBot auth req, Call.Execute .SlackBot auth req] ++ sent,
            inner.map (GoError.wrap .sendingMessage)) ∧
        (∀ rest, (demoMessage (ascii "<@U123> get pods")).Event.Text =
            mention (demoMessage (ascii "<@U123> get pods")).BotID ++ rest → req = rest) ∧
        (¬ mention (demoMessage (ascii "<@U123> get pods")).BotID <+:
            (demoMessage (ascii "<@U123> get pods")).Event.Text →
          req = (demoMessage (ascii "<@U123> get pods")).Event.Text) ∧
        Send (constEnv (.ok publicChannel) shortReply none none)
          (HandleMessage demoBot (constEnv (.ok publicChannel) shortReply none none)
            (demoMessage (ascii "<@U123> get pods")) []).1
          ([] ++ [Call.GetConversationInfo
              (demoMessage (ascii "<@U123> get pods")).Event.Channel true,
            Call.NewDefault .SlackBot auth req, Call.Execute .SlackBot auth req]) =
          ((HandleMessage demoBot (constEnv (.ok publicChannel) shortReply none none)
            (demoMessage (ascii "<@U123> get pods")) []).2.1, inner) ∧
        ([Call.GetConversationInfo (demoMessage (ascii "<@U123> get pods")).Event.Channel true,
          Call.NewDefault .SlackBot auth req, Call.Execute .SlackBot auth req] ++ sent).countP
            Call.isNewDefault = 1 ∧
        ([Call.GetConversationInfo (demoMessage (ascii "<@U123> get pods")).Event.Channel true,
          Call.NewDefault .SlackBot auth req, Call.Execute .SlackBot auth req] ++ sent).countP
            Call.isExecute = 1) ∧
      HandleMessage demoBot (constEnv (.ok publicChannel) shortReply none none)
          (demoMessage (ascii "<@U123> get pods")) [] =
        ({ demoMessage (ascii "<@U123> get pods") with
            IsAuthChannel := true
            Request := ascii " get pods"
            Response := shortReply },
          [Call.GetConversationInfo (ascii "C1") true,
            Call.NewDefault .SlackBot true (ascii " get pods"),
            Call.Execute .SlackBot true (ascii " get pods"),
            Call.log (.incomingRequest (ascii " get pods")),
            Call.log (.response shortReply),
            Call.PostMessage (ascii "C1")
              [MsgOption.Text shortReply false, MsgOption.AsUser true]],
          none) :=
  ⟨by decide,
    HandleMessage_dispatches_once demoBot _ (demoMessage (ascii "<@U123> get pods")) []
      (by decide),
    by decide⟩

/-- C2, counterexample: the bot is configured for conversation `C1`; a message
in `C1`, which the lookup reports as a channel, without the mention, leaves
`HandleMessage` with `IsAuthChannel` false. -/
theorem HandleMessage_authorized_by_id_counterexample :
    demoBot.ChannelName = (demoMessage (ascii "get pods")).Event.Channel ∧
      (HandleMessage demoBot (constEnv (.ok publicChannel) shortReply none none)
        (demoMessage (ascii "get pods")) []).1.IsAuthChannel = false := by
  decide

/-- C2, amended: when the conversation id equals the configured `ChannelName`
and the filter does not drop the message, `IsAuthChannel` is true after
`HandleMessage`, and the executor is created with the flag true. -/
theorem HandleMessage_authorized_by_id (b : SlackBot) (env : Env) (sm : slackMessage)
    (tr : List Call) (hc : b.ChannelName = sm.Event.Channel)
    (hd : dropped env sm tr = false) :
    (HandleMessage b env sm tr).1.IsAuthChannel = true ∧
      ∃ req sent,
        (HandleMessage b env sm tr).2.1 =
          tr ++ [Call.GetConversationInfo sm.Event.Channel true,
            Call.NewDefault .SlackBot true req, Call.Execute .SlackBot true req] ++ sent := by
  obtain ⟨auth, req, sent, inner, hauth, _, _, _, hH⟩ := HandleMessage_served b env sm tr hd
  have ht : auth = true := by
    rw [hauth]
    simp [hc]
  subst ht
  rw [hH]
  exact ⟨rfl, req, sent, rfl⟩

theorem HandleMessage_authorized_by_id_witness :
    demoBot.ChannelName = (demoMessage (ascii "get pods")).Event.Channel ∧
      dropped (constEnv (.ok directConversation) shortReply none none)
        (demoMessage (ascii "get pods")) [] = false ∧
      (HandleMessage demoBot (constEnv (.ok directConversation) shortReply none none)
        (demoMessage (ascii "get pods")) []).1.IsAuthChannel = true ∧
      ∃ req sent,
        (HandleMessage demoBot (constEnv (.ok directConversation) shortReply none none)
          (demoMessage (ascii "get pods")) []).2.1 =
          [] ++ [Call.GetConversationInfo (demoMessage (ascii "get pods")).Event.Channel true,
            Call.NewDefault .SlackBot true req, Call.Execute .SlackBot true req] ++ sent :=
  ⟨by decide, by decide,
    HandleMessage_authorized_by_id demoBot _ (demoMessage (ascii "get pods")) []
      (by decide) (by decide)⟩

/-- C10: when the conversation lookup fails, `HandleMessage` neither fails nor
drops the message for it: whatever the text, the executor is created and run
once, the flag it receives is true exactly when the conversation id equals the
configured `ChannelName`, and the only error `HandleMessage` can return is the
one of `Send`. -/
theorem HandleMessage_lookup_failed (b : SlackBot) (env : Env) (ev : MessageEvent)
    (botID : GoString) (tr : List Call) (e : GoError)
    (hl : env.GetConversationInfo tr ev.Channel true = .error e) :
    ∃ auth sent inner,
      (auth = true ↔ b.ChannelName = ev.Channel) ∧
      HandleMessage b env (newSlackMessage ev botID) tr =
        ({ newSlackMessage ev botID with
            IsAuthChannel := auth
            Request := TrimPrefix ev.Text (mention botID)
            Response :=
              env.Execute (tr ++ [Call.GetConversationInfo ev.Channel true,
                Call.NewDefault .SlackBot auth (TrimPrefix ev.Text (mention botID))])
                .SlackBot auth (TrimPrefix ev.Text (mention botID)) },
          tr ++ [Call.GetConversationInfo ev.Channel true,
            Call.NewDefault .SlackBot auth (TrimPrefix ev.Text (mention botID)),
            Call.Execute .SlackBot auth (TrimPrefix ev.Text (mention botID))] ++ sent,
          inner.map (GoError.wrap .sendingMessage)) ∧
      Send env (HandleMessage b env (newSlackMessage ev botID) tr).1
        (tr ++ [Call.GetConversationInfo ev.Channel true,
          Call.NewDefault .SlackBot auth (TrimPrefix ev.Text (mention botID)),
          Call.Execute .SlackBot auth (TrimPrefix ev.Text (mention botID))]) =
        ((HandleMessage b env (newSlackMessage ev botID) tr).2.1, inner) ∧
      sent.countP Call.isExecutor = 0 := by
  have hd : dropped env (newSlackMessage ev botID) tr = false := by
    simp [dropped, newSlackMessage, hl]
  obtain ⟨auth, req, sent, inner, hauth, hreq, hS, hsent, hH⟩ :=
    HandleMessage_served b env (newSlackMessage ev botID) tr hd
  have hn : nameMatches b env (newSlackMessage ev botID) tr = false := by
    simp [nameMatches, newSlackMessage, hl]
  subst hreq
  refine ⟨auth, sent, inner, ?_, hH, ?_, ?_⟩
  · rw [hauth, hn]
    simp [newSlackMessage]
  · rw [hH]
    exact hS
  · exact countP_eq_zero_of_forall _ _ (fun c hc => (hsent c hc).1)

theorem HandleMessage_lookup_failed_witness :
    (constEnv (.error (.external 1)) shortReply none none).GetConversationInfo []
        (demoEvent (ascii "get pods") []).Channel true = .error (.external 1) ∧
      ∃ auth sent inner,
        (auth = true ↔ demoBot.ChannelName = (demoEvent (ascii "get pods") []).Channel) ∧
        HandleMessage demoBot (constEnv (.error (.external 1)) shortReply none none)
            (newSlackMessage (demoEvent (ascii "get pods") []) (ascii "U123")) [] =
          ({ newSlackMessage (demoEvent (ascii "get pods") []) (ascii "U123") with
              IsAuthChannel := auth
              Request := TrimPrefix (demoEvent (ascii "get pods") []).Text
                (mention (ascii "U123"))
              Response :=
                (constEnv (.error (.external 1)) shortReply none none).Execute
                  ([] ++ [Call.GetConversationInfo (demoEvent (ascii "get pods") []).Channel true,
                    Call.NewDefault .SlackBot auth
                      (TrimPrefix (demoEvent (ascii "get pods") []).Text
                        (mention (ascii "U123")))])
                  .SlackBot auth
                  (TrimPrefix (demoEvent (ascii "get pods") []).Text
                    (mention (ascii "U123"))) },
            [] ++ [Call.GetConversationInfo (demoEvent (ascii "get pods") []).Channel true,
              Call.NewDefault .SlackBot auth
                (TrimPrefix (demoEvent (ascii "get pods") []).Text (mention (ascii "U123"))),
              Call.Execute .SlackBot auth
                (TrimPrefix (demoEvent (ascii "get pods") []).Text
                  (mention (ascii "U123")))] ++ sent,
            inner.map (GoError.wrap .sendingMessage)) ∧
        Send (constEnv (.error (.external 1)) shortReply none none)
          (HandleMessage demoBot (constEnv (.error (.external 1)) shortReply none none)
            (newSlackMessage (demoEvent (ascii "get pods") []) (ascii "U123")) []).1
          ([] ++ [Call.GetConversationInfo (demoEvent (ascii "get pods") []).Channel true,
            Call.NewDefault .SlackBot auth
              (TrimPrefix (demoEvent (ascii "get pods") []).Text (mention (ascii "U123"))),
            Call.Execute .SlackBot auth
              (TrimPrefix (demoEvent (ascii "get pods") []).Text
                (mention (ascii "U123")))]) =
          ((HandleMessage demoBot (constEnv (.error (.external 1)) shortReply none none)
            (newSlackMessage (demoEvent (ascii "get pods") []) (ascii "U123")) []).2.1,
            inner) ∧
        sent.countP Call.isExecutor = 0 :=
  ⟨rfl,
    HandleMessage_lookup_failed demoBot _ (demoEvent (ascii "get pods") []) (ascii "U123") []
      (.external 1) rfl⟩

/-! ## Claims about the mention strip -/

/-- C6, counterexample: with bot id `U123`, stripping `<@U123><@U123>` twice
gives the empty text, stripping it once gives `<@U123>`. -/
theorem TrimPrefix_idempotent_counterexample :
    TrimPrefix (TrimPrefix (ascii "<@U123><@U123>") (mention (ascii "U123")))
        (mention (ascii "U123")) ≠
      TrimPrefix (ascii "<@U123><@U123>") (mention (ascii "U123")) := by
  decide

/-- C6, amended: stripping the mention from the stripped text changes nothing
exactly when the stripped text does not itself begin with the mention; in
particular, stripping a text that does not begin with the mention returns it
unchanged. -/
theorem TrimPrefix_idempotent_iff (botID t : GoString) :
    (TrimPrefix (TrimPrefix t (mention botID)) (mention botID) = TrimPrefix t (mention botID) ↔
        ¬ mention botID <+: TrimPrefix t (mention botID)) ∧
      (¬ mention botID <+: t → TrimPrefix t (mention botID) = t) := by
  refine ⟨⟨?_, fun h => TrimPrefix_absent _ _ h⟩, fun h => TrimPrefix_absent _ _ h⟩
  intro h hp
  obtain ⟨rest, hr⟩ := hp
  rw [← hr, TrimPrefix_append] at h
  have hl := congrArg List.length h
  have := mention_length_pos botID
  simp only [List.length_append] at hl
  omega

/-! ## The event loop -/

theorem HandleMessage_calls (b : SlackBot) (env : Env) (sm : slackMessage) (tr : List Call) :
    ∃ new, (HandleMessage b env sm tr).2.1 = tr ++ new ∧
      ∀ c ∈ new, c.isDisconnect = false := by
  cases hd : dropped env sm tr with
  | true =>
    rw [HandleMessage_of_dropped b env sm tr hd]
    exact ⟨_, rfl, by simp [Call.isDisconnect]⟩
  | false =>
    obtain ⟨auth, req, sent, inner, _, _, _, hsent, hH⟩ := HandleMessage_served b env sm tr hd
    rw [hH]
    refine ⟨_, List.append_assoc _ _ _, ?_⟩
    intro c hc
    rcases List.mem_append.mp hc with h | h
    · revert h
      simp only [List.mem_cons, List.mem_singleton, List.not_mem_nil, or_false]
      rintro (rfl | rfl | rfl) <;> rfl
    · exact (hsent c h).2

theorem handleEvent_calls (b : SlackBot) (env : Env) (botID : GoString) (data : EventData)
    (tr : List Call) :
    ∃ new, (handleEvent b env botID data tr).1 = tr ++ new ∧
      ∀ c ∈ new, c.isDisconnect = false := by
  cases data with
  | MessageEvent ev =>
    unfold handleEvent
    by_cases hu : ev.User = botID
    · simp only [hu, if_true]
      exact ⟨[], by simp, by simp⟩
    · simp only [hu, if_false]
      obtain ⟨new, hn, hnew⟩ := HandleMessage_calls b env (newSlackMessage ev botID) tr
      rcases hH : HandleMessage b env (newSlackMessage ev botID) tr with ⟨sm2, t, _ | err⟩
      · rw [hH] at hn
        simp only at hn ⊢
        exact ⟨new, hn, hnew⟩
      · rw [hH] at hn
        simp only at hn ⊢
        refine ⟨new ++ [Call.log (.handlingFailed (.wrap .handlingMessage err))], ?_, ?_⟩
        · rw [hn, List.append_assoc]
        · intro c hc
          rcases List.mem_append.mp hc with h | h
          · exact hnew c h
          · rw [List.mem_singleton.mp h]; rfl
  | InvalidAuthEvent => exact ⟨[], by simp [handleEvent], by simp⟩
  | other => exact ⟨[], by simp [handleEvent], by simp⟩
  | ConnectedEvent => exact ⟨_, rfl, by simp [Call.isDisconnect]⟩
  | RTMError msg => exact ⟨_, rfl, by simp [Call.isDisconnect]⟩
  | ConnectionErrorEvent msg => exact ⟨_, rfl, by simp [Call.isDisconnect]⟩
  | IncomingEventError msg => exact ⟨_, rfl, by simp [Call.isDisconnect]⟩
  | OutgoingErrorEvent msg => exact ⟨_, rfl, by simp [Call.isDisconnect]⟩
  | UnmarshallingErrorEvent msg => exact ⟨_, rfl, by simp [Call.isDisconnect]⟩
  | RateLimitedError msg => exact ⟨_, rfl, by simp [Call.isDisconnect]⟩

/-- Only the invalid-authentication event makes the type switch return. -/
theorem handleEvent_continues (b : SlackBot) (env : Env) (botID : GoString)
    (data : EventData) (tr : List Call) (h : data ≠ .InvalidAuthEvent) :
    (handleEvent b env botID data tr).2 = none := by
  cases data with
  | MessageEvent ev =>
    unfold handleEvent
    by_cases hu : ev.User = botID
    · simp [hu]
    · simp only [hu, if_false]
      rcases HandleMessage b env (newSlackMessage ev botID) tr with ⟨sm2, t, _ | err⟩ <;> rfl
  | InvalidAuthEvent => exact absurd rfl h
  | _ => rfl

theorem eventLoop_append (b : SlackBot) (env : Env) (botID : GoString)
    (pre rest : List SelectOutcome) (tr tr2 : List Call)
    (h : eventLoop b env botID pre tr = (tr2, .waiting)) :
    eventLoop b env botID (pre ++ rest) tr = eventLoop b env botID rest tr2 := by
  induction pre generalizing tr with
  | nil =>
    simp only [eventLoop, Prod.mk.injEq, and_true] at h
    simp [h]
  | cons o pre ih =>
    cases o with
    | ctxDone => simp [eventLoop] at h
    | channelClosed => simp [eventLoop] at h
    | event data =>
      simp only [List.cons_append, eventLoop] at h ⊢
      rcases hE : handleEvent b env botID data tr with ⟨t, _ | err⟩
      · rw [hE] at h
        simp only at h ⊢
        exact ih t h
      · rw [hE] at h
        simp at h

theorem eventLoop_waiting_calls (b : SlackBot) (env : Env) (botID : GoString)
    (sched : List SelectOutcome) (tr tr2 : List Call)
    (h : eventLoop b env botID sched tr = (tr2, .waiting)) :
    ∃ new, tr2 = tr ++ new ∧ ∀ c ∈ new, c.isDisconnect = false := by
  induction sched generalizing tr with
  | nil =>
    simp only [eventLoop, Prod.mk.injEq, and_true] at h
    exact ⟨[], by simp [h], by simp⟩
  | cons o sched ih =>
    cases o with
    | ctxDone => simp [eventLoop] at h
    | channelClosed => simp [eventLoop] at h
    | event data =>
      simp only [eventLoop] at h
      obtain ⟨n1, hn1, hnew1⟩ := handleEvent_calls b env botID data tr
      rcases hE : handleEvent b env botID data tr with ⟨t, _ | err⟩
      · rw [hE] at h hn1
        simp only at h hn1
        obtain ⟨n2, hn2, hnew2⟩ := ih t h
        refine ⟨n1 ++ n2, by rw [hn2, hn1, List.append_assoc], ?_⟩
        intro c hc
        rcases List.mem_append.mp hc with h | h
        · exact hnew1 c h
        · exact hnew2 c h
      · rw [hE] at h
        simp at h

theorem eventLoop_events (b : SlackBot) (env : Env) (botID : GoString)
    (pre : List EventData) (tr : List Call) (h : ∀ d ∈ pre, d ≠ EventData.InvalidAuthEvent) :
    (eventLoop b env botID (pre.map .event) tr).2 = .waiting := by
  induction pre generalizing tr with
  | nil => rfl
  | cons d pre ih =>
    simp only [List.map_cons, eventLoop]
    have hc := handleEvent_continues b env botID d tr (h d (List.mem_cons_self _ _))
    rcases hE : handleEvent b env botID d tr with ⟨t, r⟩
    rw [hE] at hc
    simp only at hc
    subst hc
    exact ih t (fun d2 hd2 => h d2 (List.mem_cons_of_mem _ hd2))

/-- Either the identity check fails and `Start` returns at once, or `Start` is
the event loop run with the resolved identity. -/
theorem Start_cases (b : SlackBot) (env : Env) :
    (∃ err, ∀ sched, Start b env sched =
      ([Call.log .startingBot, Call.AuthTest], .returned (some (.wrap .authTest err)))) ∨
    (∃ botID tr0, (∀ c ∈ tr0, c.isDisconnect = false) ∧
      ∀ sched, Start b env sched = eventLoop b env botID sched tr0) := by
  unfold Start
  by_cases hu : b.SlackURL.length ≠ 0
  · right
    refine ⟨b.BotID, [Call.log .startingBot] ++ [Call.ManageConnection], ?_,
      fun sched => by rw [if_pos hu]⟩
    simp [Call.isDisconnect]
  · cases hA : env.AuthTest [Call.log .startingBot] with
    | error err =>
      left
      exact ⟨err, fun sched => by rw [if_neg hu, hA]; rfl⟩
    | ok userID =>
      right
      refine ⟨userID, [Call.log .startingBot] ++ [Call.AuthTest, Call.ManageConnection], ?_,
        fun sched => by rw [if_neg hu, hA]⟩
      simp [Call.isDisconnect]

/-! ## Claims about `Start` -/

/-- C4: a message event whose sender is the bot identity makes one iteration of
the loop add no call at all (no lookup, no executor, no post, no upload), and
the loop goes on with the next event. -/
theorem eventLoop_skips_own_message (b : SlackBot) (env : Env) (botID : GoString)
    (ev : MessageEvent) (rest : List SelectOutcome) (tr : List Call)
    (h : ev.User = botID) :
    handleEvent b env botID (.MessageEvent ev) tr = (tr, none) ∧
      eventLoop b env botID (.event (.MessageEvent ev) :: rest) tr =
        eventLoop b env botID rest tr := by
  have h1 : handleEvent b env botID (.MessageEvent ev) tr = (tr, none) := by
    simp [handleEvent, h]
  exact ⟨h1, by simp only [eventLoop, h1]⟩

/-- C8, counterexample: cancellation while idle, with a `Disconnect` that
returns an error: `Start` returns that error, not nil. -/
theorem Start_shutdown_counterexample :
    Start demoBot (constEnv (.ok publicChannel) shortReply none (some (.external 7)))
        [.ctxDone] =
      ([Call.log .startingBot, Call.ManageConnection, Call.log .shutdownRequested,
        Call.Disconnect], .returned (some (.external 7))) := by
  decide

/-- C8, amended: when cancellation fires while the loop is waiting, `Start`
logs the shutdown, calls `Disconnect` once (the only `Disconnect` of the run),
handles none of the later events, and returns what `Disconnect` returned: nil
when the disconnect succeeds, its error otherwise. -/
theorem Start_shutdown (b : SlackBot) (env : Env) (pre rest : List SelectOutcome)
    (tr : List Call) (hw : Start b env pre = (tr, .waiting)) :
    Start b env (pre ++ .ctxDone :: rest) =
        (tr ++ [Call.log .shutdownRequested, Call.Disconnect],
          .returned (env.Disconnect (tr ++ [Call.log .shutdownRequested]))) ∧
      (tr ++ [Call.log .shutdownRequested, Call.Disconnect]).countP Call.isDisconnect = 1 := by
  rcases Start_cases b env with ⟨err, hS⟩ | ⟨botID, tr0, h0, hS⟩
  · rw [hS] at hw
    simp at hw
  · rw [hS] at hw
    rw [hS, eventLoop_append b env botID pre _ tr0 tr hw]
    refine ⟨by simp [eventLoop], ?_⟩
    obtain ⟨new, hn, hnew⟩ := eventLoop_waiting_calls b env botID pre tr0 tr hw
    have hz : tr.countP Call.isDisconnect = 0 := by
      apply countP_eq_zero_of_forall
      intro c hc
      rw [hn] at hc
      rcases List.mem_append.mp hc with h | h
      · exact h0 c h
      · exact hnew c h
    rw [List.countP_append, hz]
    simp [Call.isDisconnect]

/-- C9: the first invalid-authentication event makes `Start` return a non-nil
error; that event and every `select` outcome after it add no call to the run.
Events of every other kind, among them a message whose handling fails, leave
the loop waiting for its next event. -/
theorem Start_invalid_auth (b : SlackBot) (env : Env) (pre : List EventData)
    (rest : List SelectOutcome) (h : ∀ d ∈ pre, d ≠ EventData.InvalidAuthEvent) :
    (∃ err, (Start b env (pre.map .event ++ .event .InvalidAuthEvent :: rest)).2 =
        .returned (some err)) ∧
      (Start b env (pre.map .event ++ .event .InvalidAuthEvent :: rest)).1 =
        (Start b env (pre.map .event)).1 ∧
      (∀ botID tr,
        (eventLoop b env botID (pre.map .event) tr).2 = .waiting ∧
        eventLoop b env botID (pre.map .event ++ .event .InvalidAuthEvent :: rest) tr =
          ((eventLoop b env botID (pre.map .event) tr).1,
            .returned (some .invalidCredentials))) := by
  have hloop : ∀ botID tr,
      (eventLoop b env botID (pre.map .event) tr).2 = .waiting ∧
      eventLoop b env botID (pre.map .event ++ .event .InvalidAuthEvent :: rest) tr =
        ((eventLoop b env botID (pre.map .event) tr).1,
          .returned (some .invalidCredentials)) := by
    intro botID tr
    have hw := eventLoop_events b env botID pre tr h
    refine ⟨hw, ?_⟩
    rw [eventLoop_append b env botID _ _ tr (eventLoop b env botID (pre.map .event) tr).1
      (Prod.ext rfl hw)]
    simp [eventLoop, handleEvent]
  refine ⟨?_, ?_, hloop⟩
  · rcases Start_cases b env with ⟨err, hS⟩ | ⟨botID, tr0, _, hS⟩
    · exact ⟨_, by rw [hS]⟩
    · exact ⟨_, by rw [hS, (hloop botID tr0).2]⟩
  · rcases Start_cases b env with ⟨err, hS⟩ | ⟨botID, tr0, _, hS⟩
    · rw [hS, hS]
    · rw [hS, hS, (hloop botID tr0).2]

/-! ## Instances at concrete inputs -/

theorem Send_post_thread_witness :
    0 < threadedMessage.Response.length ∧ threadedMessage.Response.length < 3990 ∧
      ∃ options,
        (Send (constEnv (.ok publicChannel) shortReply none none) threadedMessage []).1 =
          [] ++ [Call.log (.incomingRequest threadedMessage.Request),
            Call.log (.response threadedMessage.Response),
            Call.PostMessage threadedMessage.Event.Channel options] ∧
        (∀ ts, MsgOption.TS ts ∈ options ↔
          threadedMessage.Event.ThreadTimestamp ≠ [] ∧
            ts = threadedMessage.Event.ThreadTimestamp) ∧
        options.countP (fun o => o matches MsgOption.TS _) =
          if threadedMessage.Event.ThreadTimestamp ≠ [] then 1 else 0 :=
  ⟨by decide, by decide,
    Send_post_thread (constEnv (.ok publicChannel) shortReply none none) threadedMessage []
      (by decide) (by decide)⟩

theorem eventLoop_skips_own_message_witness :
    ownEvent.User = ascii "U123" ∧
      handleEvent demoBot silentEnv (ascii "U123") (.MessageEvent ownEvent) [] = ([], none) ∧
      eventLoop demoBot silentEnv (ascii "U123")
          (.event (.MessageEvent ownEvent) :: [.event .ConnectedEvent]) [] =
        eventLoop demoBot silentEnv (ascii "U123") [.event .ConnectedEvent] [] :=
  ⟨by decide,
    eventLoop_skips_own_message demoBot silentEnv (ascii "U123") ownEvent
      [.event .ConnectedEvent] [] (by decide)⟩

theorem Start_shutdown_witness :
    Start demoBot silentEnv [.event .ConnectedEvent] =
        ([Call.log .startingBot, Call.ManageConnection, Call.log .connected], .waiting) ∧
      Start demoBot silentEnv ([.event .ConnectedEvent] ++ .ctxDone :: [.event .ConnectedEvent]) =
        ([Call.log .startingBot, Call.ManageConnection, Call.log .connected] ++
            [Call.log .shutdownRequested, Call.Disconnect],
          .returned (silentEnv.Disconnect
            ([Call.log .startingBot, Call.ManageConnection, Call.log .connected] ++
              [Call.log .shutdownRequested]))) ∧
      ([Call.log .startingBot, Call.ManageConnection, Call.log .connected] ++
        [Call.log .shutdownRequested, Call.Disconnect]).countP Call.isDisconnect = 1 :=
  ⟨by decide,
    Start_shutdown demoBot silentEnv [.event .ConnectedEvent] [.event .ConnectedEvent]
      [Call.log .startingBot, Call.ManageConnection, Call.log .connected] (by decide)⟩

theorem Start_invalid_auth_witness :
    (∀ d ∈ [EventData.ConnectedEvent, .MessageEvent (demoEvent (ascii "get pods") [])],
        d ≠ EventData.InvalidAuthEvent) ∧
      (HandleMessage demoBot silentEnv (demoMessage (ascii "get pods")) []).2.2 =
        some (.wrap .sendingMessage (.emptyResponse (ascii "get pods"))) ∧
      ((∃ err,
        (Start demoBot silentEnv
          ([EventData.ConnectedEvent, .MessageEvent (demoEvent (ascii "get pods") [])].map
              .event ++
            .event .InvalidAuthEvent ::
              [.event (.MessageEvent (demoEvent (ascii "get pods") []))])).2 =
          .returned (some err)) ∧
        (Start demoBot silentEnv
          ([EventData.ConnectedEvent, .MessageEvent (demoEvent (ascii "get pods") [])].map
              .event ++
            .event .InvalidAuthEvent ::
              [.event (.MessageEvent (demoEvent (ascii "get pods") []))])).1 =
          (Start demoBot silentEnv
            ([EventData.ConnectedEvent, .MessageEvent (demoEvent (ascii "get pods") [])].map
              .event)).1 ∧
        (∀ botID tr,
          (eventLoop demoBot silentEnv botID
            ([EventData.ConnectedEvent, .MessageEvent (demoEvent (ascii "get pods") [])].map
              .event) tr).2 = .waiting ∧
          eventLoop demoBot silentEnv botID
              ([EventData.ConnectedEvent, .MessageEvent (demoEvent (ascii "get pods") [])].map
                  .event ++
                .event .InvalidAuthEvent ::
                  [.event (.MessageEvent (demoEvent (ascii "get pods") []))]) tr =
            ((eventLoop demoBot silentEnv botID
              ([EventData.ConnectedEvent, .MessageEvent (demoEvent (ascii "get pods") [])].map
                .event) tr).1,
              .returned (some .invalidCredentials)))) :=
  ⟨by decide, by decide,
    Start_invalid_auth demoBot silentEnv
      [EventData.ConnectedEvent, .MessageEvent (demoEvent (ascii "get pods") [])]
      [.event (.MessageEvent (demoEvent (ascii "get pods") []))] (by decide)⟩

end BotKube
